import Mathlib

/-!
# The driver bindings of isaac (python/src/bind/driver.cpp)

A shallow embedding of the functions of namespace `detail` and of the tables that
`export_driver` registers, followed by the properties proved about them.

Conventions of the embedding:

* a C++ function that can leave by an exception, by `std::terminate` or by a read that
  the language leaves undefined returns an `Outcome`;
* the effects a function has on the process (requests sent to the runtime, device
  buffers allocated, command queues constructed) are recorded in a `World` that is
  passed in and returned;
* the collaborators that live in the isaac library and whose bodies are not in
  driver.cpp (`sc::is_assignment`, `rt::execute`, `rt::profiles::get`,
  `execution_options_type::queue`, `backend::queues::get`, ...) are the fields of a
  `Runtime` record, so that every theorem holds for every behaviour they may have.
-/

set_option autoImplicit false

/-! ## Driver objects -/

/-- The two backends, `sc::driver::backend_type`. -/
inductive backend_type
  | OPENCL
  | CUDA
  deriving DecidableEq, Repr

/-- The values of `sc::driver::Device::Type`. The three enumerators that driver.cpp names
are `CPU`, `GPU` and `ACCELERATOR`; an object of a C++ enumeration may also hold a value
that is none of them, which is `other v` (`v` tells such values apart). -/
inductive Device.Type_
  | GPU
  | CPU
  | ACCELERATOR
  | other (v : Nat)
  deriving DecidableEq, Repr

/-- The values of `sc::driver::Device::Vendor` named in driver.cpp. -/
inductive Device.Vendor
  | AMD
  | INTEL
  | NVIDIA
  | UNKNOWN
  deriving DecidableEq, Repr

/-- A device, `sc::driver::Device`, reduced to the attributes the bindings read. -/
structure Device where
  name : String
  type : Device.Type_
  vendor : Device.Vendor
  clock_rate : Nat
  deriving DecidableEq, Repr

/-- A context, `sc::driver::Context`: bound to one device, tagged with its backend. -/
structure Context where
  id : Nat
  device : Device
  backend : backend_type
  deriving DecidableEq, Repr

/-- A command queue, `sc::driver::CommandQueue`. -/
structure CommandQueue where
  id : Nat
  context : Context
  device : Device
  deriving DecidableEq, Repr

/-- An event, `sc::driver::Event`: a completion token tagged with its backend. -/
structure Event where
  backend : backend_type
  id : Nat
  deriving DecidableEq, Repr

/-- A C++ exception in flight, reduced to its `what()` text. -/
structure exception where
  what : String
  deriving DecidableEq, Repr

/-- How a call of a C++ function ends. -/
inductive Outcome (α : Type)
  /-- The function returns `value`. -/
  | returned (value : α)
  /-- The function is left by the exception `e`, which propagates to the caller. -/
  | raised (e : exception)
  /-- The process ends through `std::terminate`, the path of unhandled exceptions. -/
  | terminate
  /-- The function performs an operation whose behaviour C++ does not define. -/
  | undefined
  deriving DecidableEq, Repr

/-! ## `detail::to_string` and the enumerations of `export_driver` -/

/-- The function `detail::to_string` (driver.cpp, lines 77-83). The last statement is a
`throw;` without operand: no exception is being handled when it runs, so it calls
`std::terminate`. -/
def detail.to_string (type : Device.Type_) : Outcome String :=
  if type = Device.Type_.CPU then Outcome.returned "CPU"
  else if type = Device.Type_.GPU then Outcome.returned "GPU"
  else if type = Device.Type_.ACCELERATOR then Outcome.returned "ACCELERATOR"
  else Outcome.terminate

/-- The binding `bp::def("device_type_to_string", &detail::to_string)` (line 186). -/
def device_type_to_string : Device.Type_ → Outcome String :=
  detail.to_string

/-- The values registered by `bp::enum_<sc::driver::backend_type>("backend_type")`
(lines 133-137), in registration order. -/
def export_driver.backend_type : List (String × backend_type) :=
  [("OPENCL", backend_type.OPENCL), ("CUDA", backend_type.CUDA)]

/-- The values registered by `bp::enum_<sc::driver::Device::Type>("device_type")`
(lines 139-143), in registration order. -/
def export_driver.device_type : List (String × Device.Type_) :=
  [("DEVICE_TYPE_GPU", Device.Type_.GPU), ("DEVICE_TYPE_CPU", Device.Type_.CPU)]

/-- The values registered by `bp::enum_<isaac::driver::Device::Vendor>("vendor")`
(lines 151-157), in registration order. -/
def export_driver.vendor : List (String × Device.Vendor) :=
  [("AMD", Device.Vendor.AMD), ("INTEL", Device.Vendor.INTEL),
   ("NVIDIA", Device.Vendor.NVIDIA), ("UNKNOWN", Device.Vendor.UNKNOWN)]

/-! ## Expression trees, arrays and the options of a submission -/

/-- A value of `sc::numeric_type`, as the integer of the enumeration. -/
abbrev numeric_type := Nat

/-- A value of `sc::operation_type`, as the integer of the enumeration. -/
abbrev operation_type := Nat

/-- A shape or a stride, `sc::tuple`. -/
abbrev tuple := List Nat

/-- The native handles of an array leaf, `handle_t`: `cl` for OpenCL, `cu` for CUDA. -/
structure handle_t where
  cl : Nat
  cu : Nat
  deriving DecidableEq, Repr

/-- The operator of a node, `op_element`. -/
structure op_element where
  type_family : Nat
  type : operation_type
  deriving DecidableEq, Repr

/-- The member `binary_operator` of a node. -/
structure node.binary_operator_t where
  lhs : Nat
  op : op_element
  rhs : Nat
  deriving DecidableEq, Repr

/-- The member `array` of a node. -/
structure node.array_t where
  start : Int
  handle : handle_t
  deriving DecidableEq, Repr

/-- A node of an expression tree, `sc::expression_tree::node`, with the members that
`detail::enqueue` reads: `dtype`, `shape`, `ld`, `binary_operator` and `array`. -/
structure node where
  dtype : numeric_type
  shape : tuple
  ld : tuple
  binary_operator : node.binary_operator_t
  array : node.array_t
  deriving DecidableEq, Repr

/-- An expression tree, `sc::expression_tree`: its nodes, the index `root()` and the
context `context()`. -/
structure expression_tree where
  nodes : List node
  root : Nat
  context : Context
  deriving DecidableEq, Repr

/-- The access `tree[i]`; `none` when `i` designates no node, where the C++ access is an
out-of-range read. -/
def expression_tree.index (tree : expression_tree) (i : Nat) : Option node :=
  tree.nodes[i]?

/-- A device buffer, `sc::driver::Buffer`: the native handle it holds in its backend and
whether it owns (and will release) that handle. -/
structure Buffer where
  backend : backend_type
  handle : Nat
  take_ownership : Bool
  deriving DecidableEq, Repr

/-- The native handle that `h` holds for `backend`. -/
def handle_t.native (h : handle_t) (backend : backend_type) : Nat :=
  match backend with
  | backend_type.OPENCL => h.cl
  | backend_type.CUDA => h.cu

/-- Modelled from the spec: `sc::driver::make_buffer` is defined in the driver headers of
the library, not in driver.cpp. Section 4.5 has the assignment branch build
"a result view that aliases the updated destination buffer directly (no new allocation)":
the buffer made wraps the handle passed for `backend` and allocates nothing. -/
def make_buffer (backend : backend_type) (cl cu : Nat) (take_ownership : Bool) : Buffer :=
  match backend with
  | backend_type.OPENCL => ⟨backend_type.OPENCL, cl, take_ownership⟩
  | backend_type.CUDA => ⟨backend_type.CUDA, cu, take_ownership⟩

/-- An array, `sc::array`, as built by the constructor
`sc::array(shape, dtype, start, ld, data)`. -/
structure array where
  shape : tuple
  dtype : numeric_type
  start : Int
  ld : tuple
  data : Buffer
  deriving DecidableEq, Repr

/-- The options `rt::execution_options_type(queue_id, &events, &cdependencies)`. `events`
is the content of the output list the pointer designates when the options are built,
`dependencies` the content of the dependency vector. -/
structure execution_options_type where
  queue_id : Nat
  events : List Event
  dependencies : List Event
  deriving DecidableEq, Repr

/-- The options `rt::dispatcher_options_type(tune, label)`. -/
structure dispatcher_options_type where
  tune : Bool
  label : Int
  deriving DecidableEq, Repr

/-- The options `rt::compilation_options_type(program_name, recompile)`. -/
structure compilation_options_type where
  program_name : String
  recompile : Bool
  deriving DecidableEq, Repr

/-- The value `rt::execution_handler(tree, execution_options, dispatcher_options,
compilation_options)`. -/
structure execution_handler where
  x : expression_tree
  execution_options : execution_options_type
  dispatcher_options : dispatcher_options_type
  compilation_options : compilation_options_type
  deriving DecidableEq, Repr

/-- The profile cache of one queue, the result of `rt::profiles::get(queue)`. -/
structure profiles.map_type where
  id : Nat
  deriving DecidableEq, Repr

/-- The shape, type, offset and stride the runtime gives to a materialised result. -/
structure array_layout where
  shape : tuple
  dtype : numeric_type
  start : Int
  ld : tuple
  deriving DecidableEq, Repr

/-! ## The runtime and the state of the process -/

/-- A request for execution that reaches the runtime. -/
inductive Request
  /-- The call `rt::execute(handler, profiles)`. -/
  | execute (handler : execution_handler) (profiles : profiles.map_type)
  /-- The evaluation of `handler` into the buffer `data` of an array under
  construction, `sc::array(handler)`. -/
  | materialize (handler : execution_handler) (data : Buffer)
  deriving DecidableEq, Repr

/-- The handler a request carries. -/
def Request.handler : Request → execution_handler
  | Request.execute handler _ => handler
  | Request.materialize handler _ => handler

/-- The collaborators of driver.cpp that live in the isaac library. Each field is the
behaviour of one of them; nothing is assumed about it. -/
structure Runtime where
  /-- The predicate `sc::is_assignment(op)`. -/
  is_assignment : operation_type → Bool
  /-- The lookup `execution_options.queue(context)`: the queue that `queue_id` selects in
  `context`, or the exception it throws. -/
  queue : execution_options_type → Context → Except exception CommandQueue
  /-- The accessor `rt::profiles::get(queue)`. -/
  profiles_get : CommandQueue → profiles.map_type
  /-- The call `rt::execute(handler, profiles)`: the events it appends to the output list
  of the handler, in order, or the exception it throws. -/
  execute : execution_handler → profiles.map_type → Except exception (List Event)
  /-- The evaluation of a handler into a given buffer: the layout of the result and the
  events appended to the output list of the handler, or the exception thrown. -/
  evaluate : execution_handler → Buffer → Except exception (array_layout × List Event)
  /-- The registry query `sc::driver::backend::queues::get(context, queues)`: the queues
  it reports for `context`, in order. -/
  queues_get : Context → List CommandQueue
  /-- The constructor `sc::driver::CommandQueue(context, device)`. -/
  construct_queue : Context → Device → Except exception CommandQueue

/-- The state of the process that the bindings act on. -/
structure World where
  /-- The requests for execution sent to the runtime so far, oldest first. -/
  trace : List Request
  /-- The number of device buffers allocated so far; the native handles handed out
  are the numbers below it. -/
  allocated : Nat
  /-- The command queues constructed so far, oldest first. -/
  constructed : List CommandQueue
  deriving DecidableEq, Repr

/-- A Python object as the bindings see it: a wrapped event, a wrapped command queue, or
anything else. -/
inductive bp.object
  | event (e : Event)
  | command_queue (q : CommandQueue)
  | other (repr : String)
  deriving DecidableEq, Repr

/-- A Python list, `bp::list`. -/
abbrev bp.list := List bp.object

/-- Modelled from the spec: `tools::to_list` is defined in common.hpp, not in
driver.cpp. Section 4.5 returns "the ordered sequence of Events produced by this
submission": the list has one Python object per element of the range, appended in the
order of the range. `wrap` is the conversion of one element to Python. -/
def tools.to_list {T : Type} (wrap : T → bp.object) (range : List T) : bp.list :=
  range.foldl (fun res x => res ++ [wrap x]) []

/-- The conversion `bp::extract<sc::driver::Event>(o)`, which throws when `o` does not
wrap an event. -/
def bp.extract_Event : bp.object → Except exception Event
  | bp.object.event e => Except.ok e
  | _ => Except.error ⟨"TypeError"⟩

/-- Modelled from the spec: `tools::to_vector` is defined in common.hpp, not in
driver.cpp. Section 4.5 calls `dependencies` "a list of Events": the vector has the
event extracted from each element of the list, in the order of the list, and the first
element that is not an event makes the conversion throw. -/
def tools.to_vector : bp.list → Except exception (List Event)
  | [] => Except.ok []
  | o :: rest =>
    match bp.extract_Event o with
    | Except.error e => Except.error e
    | Except.ok ev =>
      match tools.to_vector rest with
      | Except.error e => Except.error e
      | Except.ok res => Except.ok (ev :: res)

/-! ## The functions of namespace `detail` -/

/-- The function `detail::get_queues` (driver.cpp, lines 60-68). -/
def detail.get_queues (R : Runtime) (context : Context) (w : World) : bp.list × World :=
  let queues := R.queues_get context
  let res := queues.foldl (fun res queue => res ++ [bp.object.command_queue queue]) []
  (res, w)

/-- The property `queues` that `export_driver` gives to the class `context`
(`.add_property("queues", &detail::get_queues)`, line 172). -/
def export_driver.context_queues : Runtime → Context → World → bp.list × World :=
  detail.get_queues

/-- The function `detail::create_queue` (driver.cpp, lines 70-73). -/
def detail.create_queue (R : Runtime) (context : Context) (device : Device) (w : World) :
    Outcome CommandQueue × World :=
  match R.construct_queue context device with
  | Except.error e => (Outcome.raised e, w)
  | Except.ok q => (Outcome.returned q, { w with constructed := w.constructed ++ [q] })

/-- Modelled from the spec: the constructor `sc::array(rt::execution_handler const &)`
belongs to the library and is not in driver.cpp. Section 4.5: "the computation's
result is materialized into a newly allocated array owned by the result handle returned
to the caller". The constructor allocates, in the backend of the context of the tree, a
buffer with a native handle that has not been handed out before and that the array owns,
then has the runtime evaluate the handler into that buffer. -/
def array.of_handler (R : Runtime) (handler : execution_handler) (w : World) :
    Outcome (array × List Event) × World :=
  let data : Buffer := ⟨handler.x.context.backend, w.allocated, true⟩
  let w1 : World :=
    { w with allocated := w.allocated + 1,
             trace := w.trace ++ [Request.materialize handler data] }
  match R.evaluate handler data with
  | Except.error e => (Outcome.raised e, w1)
  | Except.ok (layout, produced) =>
    (Outcome.returned (⟨layout.shape, layout.dtype, layout.start, layout.ld, data⟩, produced), w1)

/-- The function `detail::enqueue` (driver.cpp, lines 88-110). It returns the tuple
`(parray, events)` as a pair. -/
def detail.enqueue (R : Runtime) (tree : expression_tree) (queue_id : Nat)
    (dependencies : bp.list) (tune : Bool) (label : Int) (program_name : String)
    (force_recompile : Bool) (w : World) : Outcome (array × bp.list) × World :=
  let events : List Event := []
  match tools.to_vector dependencies with
  | Except.error e => (Outcome.raised e, w)
  | Except.ok cdependencies =>
    let execution_options : execution_options_type := ⟨queue_id, events, cdependencies⟩
    let dispatcher_options : dispatcher_options_type := ⟨tune, label⟩
    let compilation_options : compilation_options_type := ⟨program_name, force_recompile⟩
    match tree.index tree.root with
    | none => (Outcome.undefined, w)
    | some root =>
      let handler : execution_handler :=
        ⟨tree, execution_options, dispatcher_options, compilation_options⟩
      if R.is_assignment root.binary_operator.op.type then
        match R.queue execution_options tree.context with
        | Except.error e => (Outcome.raised e, w)
        | Except.ok queue =>
          let w1 : World :=
            { w with trace := w.trace ++ [Request.execute handler (R.profiles_get queue)] }
          match R.execute handler (R.profiles_get queue) with
          | Except.error e => (Outcome.raised e, w1)
          | Except.ok produced =>
            let events := events ++ produced
            match tree.index root.binary_operator.lhs with
            | none => (Outcome.undefined, w1)
            | some lhs =>
              let data : Buffer :=
                make_buffer tree.context.backend lhs.array.handle.cl lhs.array.handle.cu false
              let parray : array := ⟨lhs.shape, lhs.dtype, lhs.array.start, lhs.ld, data⟩
              (Outcome.returned (parray, tools.to_list bp.object.event events), w1)
      else
        match array.of_handler R handler w with
        | (Outcome.returned (parray, produced), w1) =>
          let events := events ++ produced
          (Outcome.returned (parray, tools.to_list bp.object.event events), w1)
        | (Outcome.raised e, w1) => (Outcome.raised e, w1)
        | (Outcome.terminate, w1) => (Outcome.terminate, w1)
        | (Outcome.undefined, w1) => (Outcome.undefined, w1)

/-! ## Sample inputs

A runtime, trees and a state on which the functions can be evaluated. -/

/-- A GPU device. -/
def sample.device : Device :=
  ⟨"gpu0", Device.Type_.GPU, Device.Vendor.NVIDIA, 1000⟩

/-- An OpenCL context on `sample.device`. -/
def sample.context : Context :=
  ⟨0, sample.device, backend_type.OPENCL⟩

/-- The two queues the sample registry reports for a context. -/
def sample.queues (context : Context) : List CommandQueue :=
  [⟨0, context, context.device⟩, ⟨1, context, context.device⟩]

/-- A runtime in which operation 1 is the assignment, every context has the two queues
of `sample.queues`, an execution appends the events 7 and 8 and a materialisation the
event 9. -/
def sample.runtime : Runtime where
  is_assignment := fun op => op == 1
  queue := fun options context =>
    match (sample.queues context)[options.queue_id]? with
    | some queue => Except.ok queue
    | none => Except.error ⟨"invalid queue"⟩
  profiles_get := fun queue => ⟨queue.id⟩
  execute := fun handler _ =>
    Except.ok [⟨handler.x.context.backend, 7⟩, ⟨handler.x.context.backend, 8⟩]
  evaluate := fun handler _ =>
    match handler.x.nodes[handler.x.root]? with
    | some root => Except.ok (⟨root.shape, root.dtype, 0, root.ld⟩, [⟨handler.x.context.backend, 9⟩])
    | none => Except.error ⟨"empty tree"⟩
  queues_get := sample.queues
  construct_queue := fun context device =>
    if context.device = device then Except.ok ⟨2, context, device⟩
    else Except.error ⟨"device does not belong to context"⟩

/-- An array leaf of shape 4, type 11, offset `start`, over the native handles `cl`/`cu`. -/
def sample.leaf (start : Int) (cl cu : Nat) : node :=
  ⟨11, [4], [1], ⟨0, ⟨0, 0⟩, 0⟩, ⟨start, ⟨cl, cu⟩⟩⟩

/-- An operator node `lhs op rhs` of shape 4 and type 11. -/
def sample.operator (lhs op rhs : Nat) : node :=
  ⟨11, [4], [1], ⟨lhs, ⟨0, op⟩, rhs⟩, ⟨0, ⟨0, 0⟩⟩⟩

/-- The tree `a = b`: two leaves and an assignment root (operation 1). -/
def sample.assignment : expression_tree :=
  ⟨[sample.leaf 2 0 5, sample.leaf 0 1 6, sample.operator 0 1 1], 2, sample.context⟩

/-- The tree `a + b`: two leaves and a root that is not an assignment (operation 3). -/
def sample.sum : expression_tree :=
  ⟨[sample.leaf 2 0 5, sample.leaf 0 1 6, sample.operator 0 3 1], 2, sample.context⟩

/-- A state in which two buffers (native handles 0 and 1) have been allocated and
nothing has been requested. -/
def sample.world : World :=
  ⟨[], 2, []⟩

/-! ## Properties of `detail::to_string` and of the exported enumerations -/

/-- C1: `device_type_to_string` is `detail::to_string`, and it returns exactly "CPU" for
the device type CPU, "GPU" for GPU and "ACCELERATOR" for ACCELERATOR. -/
theorem device_type_to_string_labels :
    device_type_to_string = detail.to_string ∧
    device_type_to_string Device.Type_.CPU = Outcome.returned "CPU" ∧
    device_type_to_string Device.Type_.GPU = Outcome.returned "GPU" ∧
    device_type_to_string Device.Type_.ACCELERATOR = Outcome.returned "ACCELERATOR" :=
  ⟨rfl, rfl, rfl, rfl⟩

/-- C2 (the code at the failing inputs): for a device-type value that is none of CPU, GPU
and ACCELERATOR, `detail::to_string` reaches its operand-less `throw;` and ends the
process through `std::terminate`; it neither returns a string nor raises an error that
carries a reason. -/
theorem to_string_unrecognized_terminates (v : Nat) :
    detail.to_string (Device.Type_.other v) = Outcome.terminate ∧
    (¬ ∃ label : String, detail.to_string (Device.Type_.other v) = Outcome.returned label) ∧
    (¬ ∃ e : exception, detail.to_string (Device.Type_.other v) = Outcome.raised e) := by
  refine ⟨rfl, ?_, ?_⟩
  · rintro ⟨label, h⟩
    cases h
  · rintro ⟨e, h⟩
    cases h

/-- C10 (the code at the failing input): `device_type_to_string` labels ACCELERATOR, yet
the exported enumeration `device_type` has the two values GPU and CPU only, so
ACCELERATOR is not one of its values. -/
theorem device_type_export_lacks_accelerator :
    device_type_to_string Device.Type_.ACCELERATOR = Outcome.returned "ACCELERATOR" ∧
    export_driver.device_type.map Prod.snd = [Device.Type_.GPU, Device.Type_.CPU] ∧
    Device.Type_.ACCELERATOR ∉ export_driver.device_type.map Prod.snd := by
  refine ⟨rfl, rfl, ?_⟩
  simp [export_driver.device_type]

/-! ## The conversions keep every element, in order -/

/-- Appending the converted elements one by one to `acc` gives `acc` followed by the
converted range. -/
theorem tools.foldl_append_eq {T : Type} (wrap : T → bp.object) (range : List T)
    (acc : bp.list) :
    range.foldl (fun res x => res ++ [wrap x]) acc = acc ++ range.map wrap := by
  induction range generalizing acc with
  | nil => simp
  | cons x rest ih => simp [ih]

/-- A Python list of events converts to the vector of these events. -/
theorem tools.to_vector_events (v : List Event) :
    tools.to_vector (v.map bp.object.event) = Except.ok v := by
  induction v with
  | nil => rfl
  | cons e rest ih => simp [tools.to_vector, bp.extract_Event, ih]

/-! ## `detail::get_queues` -/

/-- C9: `Context.queues` is a query. The list `detail::get_queues` returns has one entry
per queue that the backend registry reports for the context, in the same order, and the
call leaves the state of the process as it was: no command queue is constructed. -/
theorem get_queues_is_a_query (R : Runtime) (context : Context) (w : World) :
    export_driver.context_queues = detail.get_queues ∧
    detail.get_queues R context w
      = ((R.queues_get context).map bp.object.command_queue, w) ∧
    (detail.get_queues R context w).1.length = (R.queues_get context).length ∧
    (detail.get_queues R context w).2.constructed = w.constructed := by
  refine ⟨rfl, ?_⟩
  simp [detail.get_queues, tools.foldl_append_eq]

/-- By contrast `detail::create_queue`, when the constructor succeeds, adds the queue it
returns to the queues constructed. -/
theorem create_queue_constructs (R : Runtime) (context : Context) (device : Device)
    (w : World) (q : CommandQueue) (h : R.construct_queue context device = Except.ok q) :
    detail.create_queue R context device w
      = (Outcome.returned q, { w with constructed := w.constructed ++ [q] }) := by
  simp [detail.create_queue, h]

/-! ## `detail::enqueue` -/

/-- The buffer that `make_buffer` builds holds the native handle of `backend` among the
two it is given, in that backend, with the ownership flag it is given. -/
theorem make_buffer_wraps (backend : backend_type) (h : handle_t) (take_ownership : Bool) :
    make_buffer backend h.cl h.cu take_ownership
      = ⟨backend, h.native backend, take_ownership⟩ := by
  cases backend <;> rfl

/-- C3: on a tree whose root operator is an assignment, once the dependencies are
converted, the queue is found and the execution has succeeded, `detail::enqueue` returns
the array built from the shape, dtype, start offset and leading dimension of the
left-hand-side node over a buffer that wraps the native handle of that node without
owning it: the buffer is the destination's (same backend, same handle) and the number
of allocated buffers is what it was before the call. -/
theorem enqueue_assignment_aliases_destination (R : Runtime) (tree : expression_tree)
    (queue_id : Nat) (dependencies : bp.list) (tune : Bool) (label : Int)
    (program_name : String) (force_recompile : Bool) (w : World)
    (cdependencies : List Event) (root lhs : node) (queue : CommandQueue)
    (produced : List Event)
    (hdeps : tools.to_vector dependencies = Except.ok cdependencies)
    (hroot : tree.index tree.root = some root)
    (hassign : R.is_assignment root.binary_operator.op.type = true)
    (hqueue : R.queue ⟨queue_id, [], cdependencies⟩ tree.context = Except.ok queue)
    (hexec : R.execute
      ⟨tree, ⟨queue_id, [], cdependencies⟩, ⟨tune, label⟩, ⟨program_name, force_recompile⟩⟩
      (R.profiles_get queue) = Except.ok produced)
    (hlhs : tree.index root.binary_operator.lhs = some lhs) :
    ∃ (parray : array) (events : bp.list) (w1 : World),
      detail.enqueue R tree queue_id dependencies tune label program_name force_recompile w
        = (Outcome.returned (parray, events), w1) ∧
      parray.shape = lhs.shape ∧ parray.dtype = lhs.dtype ∧
      parray.start = lhs.array.start ∧ parray.ld = lhs.ld ∧
      parray.data = make_buffer tree.context.backend lhs.array.handle.cl
        lhs.array.handle.cu false ∧
      parray.data.backend = tree.context.backend ∧
      parray.data.handle = lhs.array.handle.native tree.context.backend ∧
      parray.data.take_ownership = false ∧
      w1.allocated = w.allocated := by
  refine ⟨⟨lhs.shape, lhs.dtype, lhs.array.start, lhs.ld,
      make_buffer tree.context.backend lhs.array.handle.cl lhs.array.handle.cu false⟩,
    tools.to_list bp.object.event ([] ++ produced),
    { w with trace := w.trace ++ [Request.execute
      ⟨tree, ⟨queue_id, [], cdependencies⟩, ⟨tune, label⟩, ⟨program_name, force_recompile⟩⟩
      (R.profiles_get queue)] },
    ?_, rfl, rfl, rfl, rfl, rfl, ?_, ?_, ?_, rfl⟩
  · simp only [detail.enqueue, hdeps, hroot, hassign, hqueue, hexec, hlhs, if_true]
  · simp [make_buffer_wraps]
  · simp [make_buffer_wraps]
  · simp [make_buffer_wraps]

/-- An instance of C3: on the tree `a = b` with one dependency, `detail::enqueue` returns
the view of `a` (shape 4, type 11, offset 2, stride 1) over the OpenCL handle 0 of `a`,
not owned, with the two events of the execution, and the count of buffers is still 2. -/
theorem enqueue_assignment_aliases_destination_witness :
    (∃ (parray : array) (events : bp.list) (w1 : World),
      detail.enqueue sample.runtime sample.assignment 0
          [bp.object.event ⟨backend_type.OPENCL, 3⟩] false (-1) "" false sample.world
        = (Outcome.returned (parray, events), w1) ∧
      parray.shape = [4] ∧ parray.dtype = 11 ∧ parray.start = 2 ∧ parray.ld = [1] ∧
      parray.data = make_buffer backend_type.OPENCL 0 5 false ∧
      parray.data.backend = backend_type.OPENCL ∧
      parray.data.handle = 0 ∧
      parray.data.take_ownership = false ∧
      w1.allocated = 2) ∧
    (detail.enqueue sample.runtime sample.assignment 0
        [bp.object.event ⟨backend_type.OPENCL, 3⟩] false (-1) "" false sample.world).1
      = Outcome.returned (⟨[4], 11, 2, [1], ⟨backend_type.OPENCL, 0, false⟩⟩,
          [bp.object.event ⟨backend_type.OPENCL, 7⟩,
           bp.object.event ⟨backend_type.OPENCL, 8⟩]) :=
  ⟨enqueue_assignment_aliases_destination sample.runtime sample.assignment 0
      [bp.object.event ⟨backend_type.OPENCL, 3⟩] false (-1) "" false sample.world
      [⟨backend_type.OPENCL, 3⟩] (sample.operator 0 1 1) (sample.leaf 2 0 5)
      ⟨0, sample.context, sample.device⟩
      [⟨backend_type.OPENCL, 7⟩, ⟨backend_type.OPENCL, 8⟩] rfl rfl rfl rfl rfl rfl,
   rfl⟩

/-- C4: on a tree whose root operator is not an assignment, once the dependencies are
converted and the evaluation has succeeded, `detail::enqueue` returns the array that
`sc::array(handler)` builds: its buffer is allocated by the call (the count of buffers
grows by one and the array owns the buffer), it is the buffer that the request to
evaluate the tree was given, and it differs from the buffer of every node of the tree
whose array handle designates a buffer allocated before the call. -/
theorem enqueue_expression_allocates_result (R : Runtime) (tree : expression_tree)
    (queue_id : Nat) (dependencies : bp.list) (tune : Bool) (label : Int)
    (program_name : String) (force_recompile : Bool) (w : World)
    (cdependencies : List Event) (root : node) (layout : array_layout)
    (produced : List Event)
    (hdeps : tools.to_vector dependencies = Except.ok cdependencies)
    (hroot : tree.index tree.root = some root)
    (hassign : R.is_assignment root.binary_operator.op.type = false)
    (heval : R.evaluate
      ⟨tree, ⟨queue_id, [], cdependencies⟩, ⟨tune, label⟩, ⟨program_name, force_recompile⟩⟩
      ⟨tree.context.backend, w.allocated, true⟩ = Except.ok (layout, produced)) :
    ∃ (parray : array) (events : bp.list) (w1 : World),
      detail.enqueue R tree queue_id dependencies tune label program_name force_recompile w
        = (Outcome.returned (parray, events), w1) ∧
      parray.data = ⟨tree.context.backend, w.allocated, true⟩ ∧
      w1.allocated = w.allocated + 1 ∧
      w1.trace = w.trace ++ [Request.materialize
        ⟨tree, ⟨queue_id, [], cdependencies⟩, ⟨tune, label⟩, ⟨program_name, force_recompile⟩⟩
        parray.data] ∧
      (parray.shape = layout.shape ∧ parray.dtype = layout.dtype ∧
        parray.start = layout.start ∧ parray.ld = layout.ld) ∧
      ∀ n ∈ tree.nodes, n.array.handle.native tree.context.backend < w.allocated →
        parray.data.handle ≠ n.array.handle.native tree.context.backend ∧
        ∀ owned : Bool, parray.data ≠
          make_buffer tree.context.backend n.array.handle.cl n.array.handle.cu owned := by
  refine ⟨⟨layout.shape, layout.dtype, layout.start, layout.ld,
      ⟨tree.context.backend, w.allocated, true⟩⟩,
    tools.to_list bp.object.event ([] ++ produced),
    { w with allocated := w.allocated + 1,
             trace := w.trace ++ [Request.materialize
      ⟨tree, ⟨queue_id, [], cdependencies⟩, ⟨tune, label⟩, ⟨program_name, force_recompile⟩⟩
      ⟨tree.context.backend, w.allocated, true⟩] },
    ?_, rfl, rfl, rfl, ⟨rfl, rfl, rfl, rfl⟩, ?_⟩
  · simp [detail.enqueue, hdeps, hroot, hassign, array.of_handler, heval]
  · intro n _ hlive
    have hne : w.allocated ≠ n.array.handle.native tree.context.backend := by omega
    refine ⟨hne, ?_⟩
    intro owned h
    rw [make_buffer_wraps] at h
    exact hne (congrArg Buffer.handle h)

/-- An instance of C4: on the tree `a + b`, in a state where the buffers 0 and 1 of the
two leaves are allocated, `detail::enqueue` returns an array over the new buffer 2, which
is neither of them. -/
theorem enqueue_expression_allocates_result_witness :
    (∃ (parray : array) (events : bp.list) (w1 : World),
      detail.enqueue sample.runtime sample.sum 1 [] true 4 "sum" true sample.world
        = (Outcome.returned (parray, events), w1) ∧
      parray.data = ⟨backend_type.OPENCL, 2, true⟩ ∧
      w1.allocated = 2 + 1 ∧
      w1.trace = [] ++ [Request.materialize
        ⟨sample.sum, ⟨1, [], []⟩, ⟨true, 4⟩, ⟨"sum", true⟩⟩ parray.data] ∧
      (parray.shape = [4] ∧ parray.dtype = 11 ∧ parray.start = 0 ∧ parray.ld = [1]) ∧
      ∀ n ∈ sample.sum.nodes, n.array.handle.native backend_type.OPENCL < 2 →
        parray.data.handle ≠ n.array.handle.native backend_type.OPENCL ∧
        ∀ owned : Bool, parray.data ≠
          make_buffer backend_type.OPENCL n.array.handle.cl n.array.handle.cu owned) ∧
    (detail.enqueue sample.runtime sample.sum 1 [] true 4 "sum" true sample.world).1
      = Outcome.returned (⟨[4], 11, 0, [1], ⟨backend_type.OPENCL, 2, true⟩⟩,
          [bp.object.event ⟨backend_type.OPENCL, 9⟩]) :=
  ⟨enqueue_expression_allocates_result sample.runtime sample.sum 1 [] true 4 "sum" true
      sample.world [] (sample.operator 0 3 1) ⟨[4], 11, 0, [1]⟩
      [⟨backend_type.OPENCL, 9⟩] rfl rfl rfl rfl,
   rfl⟩

